import Mathlib

/-!
Shallow embedding of the GraphQL social-graph server in `src/index.js`
(Express + Mongoose). Entity ids (Mongo ObjectIds) are modelled as `Nat`;
the three Mongoose collections are lists of documents; `Model.findById`
is a first-match scan by id; `doc.save()` on a fetched document writes
back only the modified path of that document (Mongoose persists modified
paths, not the whole stale snapshot). A JavaScript runtime failure from
dereferencing a `null` document is modelled as `JsError.typeError`; note
that the resolvers never construct a NotFound-style GraphQL error.
-/

namespace GraphqlYnov

/-- Mongoose model `User` (src/index.js lines 22-27): `followers` and
`following` are arrays of User ids. There is no stored `posts` field. -/
structure User where
  id : Nat
  name : String
  email : String
  followers : List Nat
  following : List Nat
deriving Repr, DecidableEq

/-- Mongoose model `Post` (src/index.js lines 30-37). -/
structure Post where
  id : Nat
  title : String
  content : String
  imageUrl : Option String
  author : Nat
  likes : List Nat
  comments : List Nat
deriving Repr, DecidableEq

/-- Mongoose model `Comment` (src/index.js lines 40-44). -/
structure Comment where
  id : Nat
  content : String
  author : Nat
  post : Nat
deriving Repr, DecidableEq

/-- The MongoDB state: the three collections, plus a counter supplying
fresh ObjectIds for newly created documents. -/
structure DB where
  users : List User
  posts : List Post
  comments : List Comment
  nextId : Nat
deriving Repr, DecidableEq

/-- A JavaScript runtime error escaping a resolver. The only failure the
resolvers can produce is a TypeError from dereferencing `null` (e.g.
`post.likes` when `findById` returned no document). -/
inductive JsError where
  | typeError
deriving Repr, DecidableEq

/-- Model lookup `User.findById(id)`: first stored user whose id matches, else null. -/
def User.findById (db : DB) (id : Nat) : Option User :=
  db.users.find? (fun u => u.id == id)

/-- Model lookup `Post.findById(id)`. -/
def Post.findById (db : DB) (id : Nat) : Option Post :=
  db.posts.find? (fun p => p.id == id)

/-- Filtered scan of the Post collection by author, as in
`Post.find({ author: id })` (src/index.js line 95) — the derived
`posts` relationship. -/
def Post.findByAuthor (db : DB) (author : Nat) : List Post :=
  db.posts.filter (fun p => p.author == author)

/-- Write-back of `follower.save()` after mutating `follower.following`: Mongoose
writes back the modified `following` path of the document with that id. -/
def User.saveFollowing (db : DB) (id : Nat) (fl : List Nat) : DB :=
  { db with users := db.users.map (fun u => if u.id == id then { u with following := fl } else u) }

/-- Write-back of `following.save()` after mutating `following.followers`. -/
def User.saveFollowers (db : DB) (id : Nat) (fl : List Nat) : DB :=
  { db with users := db.users.map (fun u => if u.id == id then { u with followers := fl } else u) }

/-- Write-back of `post.save()` after mutating `post.likes`. -/
def Post.saveLikes (db : DB) (id : Nat) (l : List Nat) : DB :=
  { db with posts := db.posts.map (fun p => if p.id == id then { p with likes := l } else p) }

/-- Write-back of `post.save()` after mutating `post.comments`. -/
def Post.saveComments (db : DB) (id : Nat) (l : List Nat) : DB :=
  { db with posts := db.posts.map (fun p => if p.id == id then { p with comments := l } else p) }

/-- Mongoose `populate` over an array of User-id refs: each id is
dereferenced, and dangling ids are dropped from the populated array. -/
def populateUsers (db : DB) (ids : List Nat) : List User :=
  ids.filterMap (fun i => User.findById db i)

/-- Mutation `addUser` (src/index.js lines 124-128): creates the user
with empty relationship arrays and saves it; no validation. -/
def addUser (db : DB) (name email : String) : User × DB :=
  let u : User := { id := db.nextId, name := name, email := email, followers := [], following := [] }
  (u, { db with users := db.users ++ [u], nextId := db.nextId + 1 })

/-- Mutation `addPost` (src/index.js lines 130-134): creates the post
with `author := authorId` and saves it; the author id is not looked up. -/
def addPost (db : DB) (title content : String) (imageUrl : Option String) (authorId : Nat) :
    Post × DB :=
  let p : Post := { id := db.nextId, title := title, content := content, imageUrl := imageUrl,
                    author := authorId, likes := [], comments := [] }
  (p, { db with posts := db.posts ++ [p], nextId := db.nextId + 1 })

/-- Mutation `likePost` (src/index.js lines 136-144): fetch the post
(`post.likes` on a null document throws a TypeError); push `userId` onto
`likes` when absent, then save. The user id is never looked up. -/
def likePost (db : DB) (postId userId : Nat) : Except JsError Post × DB :=
  match Post.findById db postId with
  | none => (.error .typeError, db)
  | some post =>
    if userId ∈ post.likes then (.ok post, db)
    else (.ok { post with likes := post.likes ++ [userId] },
          Post.saveLikes db postId (post.likes ++ [userId]))

/-- Mutation `addComment` (src/index.js lines 146-156): the Comment is
created and saved first; only then is the post fetched (a TypeError on a
missing post leaves the already-saved comment behind) and the comment id
pushed onto `post.comments`. Neither id is validated. -/
def addComment (db : DB) (postId : Nat) (content : String) (authorId : Nat) :
    Except JsError Comment × DB :=
  let comment : Comment := { id := db.nextId, content := content, author := authorId, post := postId }
  let db1 : DB := { db with comments := db.comments ++ [comment], nextId := db.nextId + 1 }
  match Post.findById db1 postId with
  | none => (.error .typeError, db1)
  | some post => (.ok comment, Post.saveComments db1 postId (post.comments ++ [comment.id]))

/-- Mutation `followUser` (src/index.js lines 158-174): both users are
fetched up front; `followingId` is pushed onto `follower.following` when
absent and saved; then `followerId` is pushed onto the pre-fetched
`following` document's `followers` when absent and saved (each save
writing only its modified path); the mutated `follower` document is
returned. A null `follower` throws before any write; a null `following`
throws after the first write. -/
def followUser (db : DB) (followerId followingId : Nat) : Except JsError User × DB :=
  match User.findById db followerId, User.findById db followingId with
  | none, _ => (.error .typeError, db)
  | some follower, none =>
      (.error .typeError,
        if followingId ∈ follower.following then db
        else User.saveFollowing db followerId (follower.following ++ [followingId]))
  | some follower, some following =>
      (.ok (if followingId ∈ follower.following then follower
            else { follower with following := follower.following ++ [followingId] }),
       if followerId ∈ following.followers then
         (if followingId ∈ follower.following then db
          else User.saveFollowing db followerId (follower.following ++ [followingId]))
       else
         User.saveFollowers
           (if followingId ∈ follower.following then db
            else User.saveFollowing db followerId (follower.following ++ [followingId]))
           followingId (following.followers ++ [followerId]))

namespace Query

/-- Root query `user(id)` (src/index.js lines 92-97): fetch by id, then
assign the derived posts (`Post.find({ author: id })`) onto the result;
when the id does not resolve, `user.posts = ...` on null throws a
TypeError — there is no NotFound error and no null result. -/
def user (db : DB) (id : Nat) : Except JsError (User × List Post) :=
  match User.findById db id with
  | none => .error .typeError
  | some u => .ok (u, Post.findByAuthor db id)

/-- Root query `post(id)` (src/index.js lines 104-112): fetch by id with
populate; when the id does not resolve the query simply returns null. -/
def post (db : DB) (id : Nat) : Option Post :=
  Post.findById db id

end Query

/-! ### Infrastructure lemmas -/

/-- The function `find?` commutes with a map that preserves the predicate. -/
theorem find?_map_eq {α : Type} {l : List α} {f : α → α} {p : α → Bool}
    (hf : ∀ a, p (f a) = p a) :
    (l.map f).find? p = (l.find? p).map f := by
  induction l with
  | nil => rfl
  | cons a tl ih =>
    by_cases h : p a = true
    · rw [List.map_cons, List.find?_cons_of_pos _ (by rw [hf, h]),
        List.find?_cons_of_pos _ h, Option.map_some']
    · rw [List.map_cons, List.find?_cons_of_neg _ (by rw [hf]; exact h),
        List.find?_cons_of_neg _ h, ih]

/-- A user found by id carries that id. -/
theorem findById_id_user {db : DB} {i : Nat} {u : User}
    (h : User.findById db i = some u) : u.id = i := by
  have := List.find?_some h
  simpa using this

/-- A post found by id carries that id. -/
theorem findById_id_post {db : DB} {i : Nat} {p : Post}
    (h : Post.findById db i = some p) : p.id = i := by
  have := List.find?_some h
  simpa using this

theorem User.findById_saveFollowing (db : DB) (i : Nat) (fl : List Nat) (j : Nat) :
    User.findById (User.saveFollowing db i fl) j =
      (User.findById db j).map (fun u => if u.id == i then { u with following := fl } else u) := by
  unfold User.findById User.saveFollowing
  exact find?_map_eq (fun u => by by_cases h : u.id == i <;> simp [h])

theorem User.findById_saveFollowers (db : DB) (i : Nat) (fl : List Nat) (j : Nat) :
    User.findById (User.saveFollowers db i fl) j =
      (User.findById db j).map (fun u => if u.id == i then { u with followers := fl } else u) := by
  unfold User.findById User.saveFollowers
  exact find?_map_eq (fun u => by by_cases h : u.id == i <;> simp [h])

theorem Post.findById_saveLikes (db : DB) (i : Nat) (l : List Nat) (j : Nat) :
    Post.findById (Post.saveLikes db i l) j =
      (Post.findById db j).map (fun p => if p.id == i then { p with likes := l } else p) := by
  unfold Post.findById Post.saveLikes
  exact find?_map_eq (fun p => by by_cases h : p.id == i <;> simp [h])

theorem Post.findById_saveComments (db : DB) (i : Nat) (l : List Nat) (j : Nat) :
    Post.findById (Post.saveComments db i l) j =
      (Post.findById db j).map (fun p => if p.id == i then { p with comments := l } else p) := by
  unfold Post.findById Post.saveComments
  exact find?_map_eq (fun p => by by_cases h : p.id == i <;> simp [h])

/-- Effect of the first (conditional) write of `followUser` on one user. -/
def fstep1 (A B : Nat) (uA : User) (u : User) : User :=
  if B ∈ uA.following then u
  else if u.id == A then { u with following := uA.following ++ [B] } else u

/-- Effect of the second (conditional) write of `followUser` on one user. -/
def fstep2 (A B : Nat) (uB : User) (u : User) : User :=
  if A ∈ uB.followers then u
  else if u.id == B then { u with followers := uB.followers ++ [A] } else u

/-- Reduction of `followUser` when both users resolve. -/
theorem followUser_eq (db : DB) (A B : Nat) (uA uB : User)
    (hA : User.findById db A = some uA) (hB : User.findById db B = some uB) :
    followUser db A B =
      (.ok (if B ∈ uA.following then uA
            else { uA with following := uA.following ++ [B] }),
       if A ∈ uB.followers then
         (if B ∈ uA.following then db
          else User.saveFollowing db A (uA.following ++ [B]))
       else
         User.saveFollowers
           (if B ∈ uA.following then db
            else User.saveFollowing db A (uA.following ++ [B]))
           B (uB.followers ++ [A])) := by
  unfold followUser
  rw [hA, hB]

/-- Lookup in the state left by a completed `followUser`. -/
theorem findById_after_followUser (db : DB) (A B : Nat) (uA uB : User) (j : Nat)
    (hA : User.findById db A = some uA) (hB : User.findById db B = some uB) :
    User.findById (followUser db A B).2 j =
      (User.findById db j).map (fun u => fstep2 A B uB (fstep1 A B uA u)) := by
  rw [followUser_eq db A B uA uB hA hB]
  by_cases c1 : B ∈ uA.following <;> by_cases c2 : A ∈ uB.followers <;>
    simp only [c1, c2, if_true, if_false, fstep1, fstep2,
      User.findById_saveFollowing, User.findById_saveFollowers, Option.map_map]
  all_goals first
    | rfl
    | simp

/-- The follower's `following` list after a completed `followUser`. -/
theorem following_after (A B : Nat) (uA uB : User) (hidA : uA.id = A) :
    (fstep2 A B uB (fstep1 A B uA uA)).following =
      if B ∈ uA.following then uA.following else uA.following ++ [B] := by
  unfold fstep1 fstep2
  by_cases c1 : B ∈ uA.following <;> by_cases c2 : A ∈ uB.followers <;>
    simp [c1, c2, hidA] <;> split <;> simp

/-- The followed user's `followers` list after a completed `followUser`. -/
theorem followers_after (A B : Nat) (uA uB : User) (hidB : uB.id = B) :
    (fstep2 A B uB (fstep1 A B uA uB)).followers =
      if A ∈ uB.followers then uB.followers else uB.followers ++ [A] := by
  unfold fstep1 fstep2
  by_cases c1 : B ∈ uA.following <;> by_cases c2 : A ∈ uB.followers <;>
    simp [c1, c2, hidB] <;> split <;> simp

/-! ### Concrete states used by witnesses and counterexamples -/

def alice : User := { id := 1, name := "Alice", email := "a@x.com", followers := [], following := [] }

def bob : User := { id := 2, name := "Bob", email := "b@x.com", followers := [], following := [] }

/-- A store holding the two users Alice (id 1) and Bob (id 2). -/
def db0 : DB := { users := [alice, bob], posts := [], comments := [], nextId := 3 }

def carol : User := { id := 1, name := "Carol", email := "c@x.com", followers := [], following := [] }

def post1 : Post := { id := 2, title := "T", content := "C", imageUrl := none,
                      author := 1, likes := [], comments := [] }

/-- A store holding one user (id 1) and one post (id 2) by that user. -/
def dbP : DB := { users := [carol], posts := [post1], comments := [], nextId := 3 }

/-- The empty store. -/
def dbEmpty : DB := { users := [], posts := [], comments := [], nextId := 1 }

/-- A store holding a single post (id 1) and no users at all. -/
def dbC : DB :=
  { users := [],
    posts := [{ id := 1, title := "T", content := "C", imageUrl := none,
                author := 7, likes := [], comments := [] }],
    comments := [], nextId := 5 }

/-! ### Claims -/

/-- C1: for existing users A and B, after a completed `followUser A B`
the stored A has B in `following`, the stored B has A in `followers`,
and the symmetry biconditional holds for the pair in the new state. -/
theorem followUser_symmetry (db : DB) (A B : Nat) (uA uB : User)
    (hA : User.findById db A = some uA) (hB : User.findById db B = some uB) :
    ∃ uA2 uB2,
      User.findById (followUser db A B).2 A = some uA2 ∧
      User.findById (followUser db A B).2 B = some uB2 ∧
      B ∈ uA2.following ∧ A ∈ uB2.followers ∧
      (B ∈ uA2.following ↔ A ∈ uB2.followers) := by
  have hidA : uA.id = A := findById_id_user hA
  have hidB : uB.id = B := findById_id_user hB
  have h2A := findById_after_followUser db A B uA uB A hA hB
  have h2B := findById_after_followUser db A B uA uB B hA hB
  rw [hA, Option.map_some'] at h2A
  rw [hB, Option.map_some'] at h2B
  refine ⟨_, _, h2A, h2B, ?_, ?_, ?_⟩
  · rw [following_after A B uA uB hidA]
    by_cases c1 : B ∈ uA.following <;> simp [c1]
  · rw [followers_after A B uA uB hidB]
    by_cases c2 : A ∈ uB.followers <;> simp [c2]
  · constructor <;> intro _
    · rw [followers_after A B uA uB hidB]
      by_cases c2 : A ∈ uB.followers <;> simp [c2]
    · rw [following_after A B uA uB hidA]
      by_cases c1 : B ∈ uA.following <;> simp [c1]

/-- Witness for C1 at the concrete store `db0`. -/
theorem followUser_symmetry_witness :
    ∃ uA2 uB2,
      User.findById (followUser db0 1 2).2 1 = some uA2 ∧
      User.findById (followUser db0 1 2).2 2 = some uB2 ∧
      2 ∈ uA2.following ∧ 1 ∈ uB2.followers ∧
      (2 ∈ uA2.following ↔ 1 ∈ uB2.followers) :=
  followUser_symmetry db0 1 2 alice bob rfl rfl

/-- C3: for existing users A and B, running `followUser A B` a second
time leaves the state of the first run unchanged, and in that state the
stored A's `following` and stored B's `followers` are duplicate-free
(assuming the store's uniqueness invariant held before). -/
theorem followUser_idempotent (db : DB) (A B : Nat) (uA uB : User)
    (hA : User.findById db A = some uA) (hB : User.findById db B = some uB)
    (hNdA : uA.following.Nodup) (hNdB : uB.followers.Nodup) :
    (followUser (followUser db A B).2 A B).2 = (followUser db A B).2 ∧
    ∃ uA2 uB2,
      User.findById (followUser db A B).2 A = some uA2 ∧
      User.findById (followUser db A B).2 B = some uB2 ∧
      uA2.following.Nodup ∧ uB2.followers.Nodup := by
  have hidA : uA.id = A := findById_id_user hA
  have hidB : uB.id = B := findById_id_user hB
  have h2A := findById_after_followUser db A B uA uB A hA hB
  have h2B := findById_after_followUser db A B uA uB B hA hB
  rw [hA, Option.map_some'] at h2A
  rw [hB, Option.map_some'] at h2B
  have hmem1 : B ∈ (fstep2 A B uB (fstep1 A B uA uA)).following := by
    rw [following_after A B uA uB hidA]
    by_cases c1 : B ∈ uA.following <;> simp [c1]
  have hmem2 : A ∈ (fstep2 A B uB (fstep1 A B uA uB)).followers := by
    rw [followers_after A B uA uB hidB]
    by_cases c2 : A ∈ uB.followers <;> simp [c2]
  constructor
  · rw [followUser_eq (followUser db A B).2 A B _ _ h2A h2B]
    simp [hmem1, hmem2]
  · refine ⟨_, _, h2A, h2B, ?_, ?_⟩
    · rw [following_after A B uA uB hidA]
      by_cases c1 : B ∈ uA.following
      · simpa [c1] using hNdA
      · simp only [c1, if_false]
        exact hNdA.append (List.nodup_singleton B)
          (fun a ha hb => c1 (List.mem_singleton.mp hb ▸ ha))
    · rw [followers_after A B uA uB hidB]
      by_cases c2 : A ∈ uB.followers
      · simpa [c2] using hNdB
      · simp only [c2, if_false]
        exact hNdB.append (List.nodup_singleton A)
          (fun a ha hb => c2 (List.mem_singleton.mp hb ▸ ha))

/-- Witness for C3 at the concrete store `db0`. -/
theorem followUser_idempotent_witness :
    (followUser (followUser db0 1 2).2 1 2).2 = (followUser db0 1 2).2 ∧
    ∃ uA2 uB2,
      User.findById (followUser db0 1 2).2 1 = some uA2 ∧
      User.findById (followUser db0 1 2).2 2 = some uB2 ∧
      uA2.following.Nodup ∧ uB2.followers.Nodup :=
  followUser_idempotent db0 1 2 alice bob rfl rfl List.nodup_nil List.nodup_nil

/-- C9: self-follow is accepted: for an existing user A with
duplicate-free relationship lists, `followUser A A` succeeds and the
stored A afterwards holds its own id exactly once in `following` and
exactly once in `followers`. -/
theorem followUser_self (db : DB) (A : Nat) (uA : User)
    (hA : User.findById db A = some uA)
    (hNd1 : uA.following.Nodup) (hNd2 : uA.followers.Nodup) :
    (∃ r, (followUser db A A).1 = .ok r) ∧
    ∃ uA2,
      User.findById (followUser db A A).2 A = some uA2 ∧
      uA2.following.count A = 1 ∧ uA2.followers.count A = 1 := by
  have hidA : uA.id = A := findById_id_user hA
  have h2A := findById_after_followUser db A A uA uA A hA hA
  rw [hA, Option.map_some'] at h2A
  constructor
  · rw [followUser_eq db A A uA uA hA hA]
    exact ⟨_, rfl⟩
  · refine ⟨_, h2A, ?_, ?_⟩
    · rw [following_after A A uA uA hidA]
      by_cases c1 : A ∈ uA.following
      · simp [c1, List.count_eq_one_of_mem hNd1 c1]
      · simp [c1, List.count_append, List.count_eq_zero.mpr c1]
    · rw [followers_after A A uA uA hidA]
      by_cases c2 : A ∈ uA.followers
      · simp [c2, List.count_eq_one_of_mem hNd2 c2]
      · simp [c2, List.count_append, List.count_eq_zero.mpr c2]

/-- Witness for C9 at the concrete store `db0`. -/
theorem followUser_self_witness :
    (∃ r, (followUser db0 1 1).1 = .ok r) ∧
    ∃ uA2,
      User.findById (followUser db0 1 1).2 1 = some uA2 ∧
      uA2.following.count 1 = 1 ∧ uA2.followers.count 1 = 1 :=
  followUser_self db0 1 alice rfl List.nodup_nil List.nodup_nil

/-- C10: `followUser` returns the follower entity — the User fetched by
`followerId`, with its `following` list updated — not the followed user. -/
theorem followUser_returns_follower (db : DB) (A B : Nat) (uA uB : User)
    (hA : User.findById db A = some uA) (hB : User.findById db B = some uB) :
    (followUser db A B).1 =
      .ok { uA with following := if B ∈ uA.following then uA.following
                                 else uA.following ++ [B] } := by
  rw [followUser_eq db A B uA uB hA hB]
  by_cases c1 : B ∈ uA.following <;> simp [c1]

/-- Witness for C10 at the concrete store `db0`. -/
theorem followUser_returns_follower_witness :
    (followUser db0 1 2).1 =
      .ok { alice with following := if 2 ∈ alice.following then alice.following
                                    else alice.following ++ [2] } :=
  followUser_returns_follower db0 1 2 alice bob rfl rfl

/-- Reduction of `likePost` when the post resolves. -/
theorem likePost_eq (db : DB) (P U : Nat) (post0 : Post)
    (hP : Post.findById db P = some post0) :
    likePost db P U =
      (if U ∈ post0.likes then (.ok post0, db)
       else (.ok { post0 with likes := post0.likes ++ [U] },
             Post.saveLikes db P (post0.likes ++ [U]))) := by
  unfold likePost
  rw [hP]

/-- C2: for an existing post P (with duplicate-free likes) and an
existing user U: if U already likes P the mutation is a no-op returning
the unchanged post and state; a second application changes nothing; and
after two applications the stored likes list holds U exactly once. -/
theorem likePost_idempotent (db : DB) (P U : Nat) (post0 : Post) (u0 : User)
    (hP : Post.findById db P = some post0) (hU : User.findById db U = some u0)
    (hNd : post0.likes.Nodup) :
    (U ∈ post0.likes → likePost db P U = (.ok post0, db)) ∧
    (likePost (likePost db P U).2 P U).2 = (likePost db P U).2 ∧
    ∃ p2, Post.findById (likePost db P U).2 P = some p2 ∧ p2.likes.count U = 1 := by
  have hidP : post0.id = P := findById_id_post hP
  by_cases c : U ∈ post0.likes
  · have h1 : likePost db P U = (.ok post0, db) := by
      rw [likePost_eq db P U post0 hP]
      simp [c]
    have h2 : (likePost db P U).2 = db := by rw [h1]
    refine ⟨fun _ => h1, ?_, ?_⟩
    · rw [h2]
      exact h2
    · rw [h2]
      exact ⟨post0, hP, List.count_eq_one_of_mem hNd c⟩
  · have hP1 : Post.findById (likePost db P U).2 P =
        some { post0 with likes := post0.likes ++ [U] } := by
      rw [likePost_eq db P U post0 hP]
      simp only [c, if_false]
      rw [Post.findById_saveLikes, hP, Option.map_some']
      simp [hidP]
    refine ⟨fun hc => absurd hc c, ?_, ?_⟩
    · rw [likePost_eq (likePost db P U).2 P U _ hP1]
      simp
    · exact ⟨_, hP1, by simp [List.count_append, List.count_eq_zero.mpr c]⟩

/-- Witness for C2 at the concrete store `dbP`. -/
theorem likePost_idempotent_witness :
    (1 ∈ post1.likes → likePost dbP 2 1 = (.ok post1, dbP)) ∧
    (likePost (likePost dbP 2 1).2 2 1).2 = (likePost dbP 2 1).2 ∧
    ∃ p2, Post.findById (likePost dbP 2 1).2 2 = some p2 ∧ p2.likes.count 1 = 1 :=
  likePost_idempotent dbP 2 1 post1 carol rfl rfl List.nodup_nil

/-- C5 (code bug): `likePost` performs no lookup of `userId`: with post 2
present and no user 99 anywhere in the store, `likePost 2 99` succeeds
and appends the dangling id 99 to the stored post's likes, violating the
referential-integrity invariant instead of failing with NotFound. -/
theorem likePost_dangling_user :
    User.findById dbP 99 = none ∧
    (likePost dbP 2 99).1 = .ok { post1 with likes := [99] } ∧
    Post.findById (likePost dbP 2 99).2 2 = some { post1 with likes := [99] } := by
  refine ⟨rfl, ?_, ?_⟩ <;> rfl

/-- C4 (code bug): `addPost` never resolves `authorId`: on the empty
store, `addPost` with author 7 succeeds and stores a post whose `author`
is the dangling id 7, instead of failing with NotFound. -/
theorem addPost_dangling_author :
    User.findById dbEmpty 7 = none ∧
    (addPost dbEmpty "T" "C" none 7).1.author = 7 ∧
    (addPost dbEmpty "T" "C" none 7).2.posts = [(addPost dbEmpty "T" "C" none 7).1] := by
  refine ⟨rfl, rfl, rfl⟩

/-- C6 counterexample: `addComment` validates nothing: with post 1
present and no user in the store at all, `addComment 1 "hi" 99` commits
a Comment whose author is the dangling id 99 — so the claim that both
ids are validated to exist before either write occurs is false. -/
theorem addComment_no_validation :
    User.findById dbC 99 = none ∧
    ∃ c db2, addComment dbC 1 "hi" 99 = (.ok c, db2) ∧
      c.author = 99 ∧ db2.comments = [c] := by
  exact ⟨rfl, ⟨5, "hi", 99, 1⟩, _, rfl, rfl, rfl⟩

/-- C6 (amended): for an existing post P and user A, `addComment`
creates exactly one new Comment with `author = A` and `post = P` and
appends its id to P's `comments`, growing it by exactly one. -/
theorem addComment_appends (db : DB) (P : Nat) (content : String) (A : Nat)
    (post0 : Post) (u0 : User)
    (hP : Post.findById db P = some post0) (hU : User.findById db A = some u0) :
    ∃ c db2,
      addComment db P content A = (.ok c, db2) ∧
      c.author = A ∧ c.post = P ∧ c.content = content ∧
      db2.comments = db.comments ++ [c] ∧
      ∃ p2, Post.findById db2 P = some p2 ∧
        p2.comments = post0.comments ++ [c.id] ∧
        p2.comments.length = post0.comments.length + 1 := by
  have hidP : post0.id = P := findById_id_post hP
  have hP1 : Post.findById
      { db with comments := db.comments ++ [⟨db.nextId, content, A, P⟩],
                nextId := db.nextId + 1 } P = some post0 := hP
  refine ⟨⟨db.nextId, content, A, P⟩,
    Post.saveComments
      { db with comments := db.comments ++ [⟨db.nextId, content, A, P⟩],
                nextId := db.nextId + 1 } P (post0.comments ++ [db.nextId]),
    ?_, rfl, rfl, rfl, rfl, ?_⟩
  · unfold addComment
    simp only [hP1]
  · rw [Post.findById_saveComments, hP1, Option.map_some']
    refine ⟨_, rfl, ?_, ?_⟩ <;> simp [hidP]

/-- Witness for C6's amended theorem at the concrete store `dbP`. -/
theorem addComment_appends_witness :
    ∃ c db2,
      addComment dbP 2 "hi" 1 = (.ok c, db2) ∧
      c.author = 1 ∧ c.post = 2 ∧ c.content = "hi" ∧
      db2.comments = dbP.comments ++ [c] ∧
      ∃ p2, Post.findById db2 2 = some p2 ∧
        p2.comments = post1.comments ++ [c.id] ∧
        p2.comments.length = post1.comments.length + 1 :=
  addComment_appends dbP 2 "hi" 1 post1 carol rfl rfl

/-- C7 counterexample: at the concrete store `db0` neither a user nor a
post with id 5 exists, yet the root `post` query completes and returns
null rather than failing, and the root `user` query fails with a raw
TypeError: no root-level NotFound failure exists, and the two root
resolvers do not even agree with each other. -/
theorem query_root_policy_counterexample :
    Post.findById db0 5 = none ∧ Query.post db0 5 = none ∧
    User.findById db0 5 = none ∧ Query.user db0 5 = .error .typeError :=
  ⟨rfl, rfl, rfl, rfl⟩

/-- C7 (amended): a dangling id inside a populated relationship array is
silently dropped (the field resolves without the absent entity); a
nonexistent root id makes the `post` query resolve to null without any
error, while the `user` query throws a TypeError — never NotFound. -/
theorem resolution_policy (db : DB) (id : Nat) (pre suf : List Nat)
    (hU : User.findById db id = none) (hP : Post.findById db id = none) :
    Query.post db id = none ∧
    Query.user db id = .error .typeError ∧
    populateUsers db (pre ++ id :: suf) = populateUsers db (pre ++ suf) := by
  refine ⟨?_, ?_, ?_⟩
  · unfold Query.post
    exact hP
  · unfold Query.user
    rw [hU]
  · unfold populateUsers
    simp [List.filterMap_append, List.filterMap_cons, hU]

/-- Witness for C7's amended theorem at the concrete store `db0`. -/
theorem resolution_policy_witness :
    Query.post db0 5 = none ∧
    Query.user db0 5 = .error .typeError ∧
    populateUsers db0 ([1] ++ 5 :: [2]) = populateUsers db0 ([1] ++ [2]) :=
  resolution_policy db0 5 [1] [2] rfl rfl

/-- Argument record of one `addPost` call. -/
structure AddPostReq where
  title : String
  content : String
  imageUrl : Option String
  authorId : Nat
deriving Repr, DecidableEq

/-- Apply a sequence of `addPost` mutations to the store. -/
def applyAddPosts (db : DB) (ops : List AddPostReq) : DB :=
  ops.foldl (fun d o => (addPost d o.title o.content o.imageUrl o.authorId).2) db

/-- The caller-supplied part of a stored post: everything except the
generated id and the (initially empty) relationship lists. -/
def Post.payload (p : Post) : String × String × Option String × Nat :=
  (p.title, p.content, p.imageUrl, p.author)

def AddPostReq.payload (o : AddPostReq) : String × String × Option String × Nat :=
  (o.title, o.content, o.imageUrl, o.authorId)

/-- One `addPost` call extends the author scan of its own author by the
new post and leaves every other author's scan unchanged. -/
theorem findByAuthor_addPost (db : DB) (t c : String) (img : Option String) (a U : Nat) :
    Post.findByAuthor (addPost db t c img a).2 U =
      Post.findByAuthor db U ++ (if a == U then [(addPost db t c img a).1] else []) := by
  unfold addPost Post.findByAuthor
  simp only [List.filter_append]
  by_cases h : a == U <;> simp [h]

/-- C8: a user's posts are derived by scanning stored Posts filtered by
author: after any sequence of `addPost` mutations the scan for U returns
exactly the previously stored posts of U followed by exactly the
requests whose author was U, in creation order — interleaved posts by
other authors never appear; and the root `user` query computes its
`posts` field by exactly this scan. -/
theorem user_posts_derived (db : DB) (ops : List AddPostReq) (U : Nat) :
    (Post.findByAuthor (applyAddPosts db ops) U).map Post.payload =
      (Post.findByAuthor db U).map Post.payload ++
        (ops.filter (fun o => o.authorId == U)).map AddPostReq.payload ∧
    Query.user (applyAddPosts db ops) U =
      (User.findById (applyAddPosts db ops) U).elim (Except.error JsError.typeError)
        (fun u => Except.ok (u, Post.findByAuthor (applyAddPosts db ops) U)) := by
  constructor
  · induction ops generalizing db with
    | nil => simp [applyAddPosts]
    | cons o tl ih =>
      have hrec : applyAddPosts db (o :: tl) =
          applyAddPosts (addPost db o.title o.content o.imageUrl o.authorId).2 tl := rfl
      rw [hrec, ih, findByAuthor_addPost db o.title o.content o.imageUrl o.authorId U]
      by_cases h : o.authorId == U <;>
        simp [h, List.filter_cons, AddPostReq.payload, Post.payload, addPost]
  · cases h : User.findById (applyAddPosts db ops) U with
    | none =>
        unfold Query.user
        rw [h]
        rfl
    | some u =>
        unfold Query.user
        rw [h]
        rfl

end GraphqlYnov
